import Mathlib

/- Verification development for the navigation engine in src/navparser.cpp
   (namespace navparser, the active implementation): a shallow embedding of
   its geometry helpers, cost function with visibility cache, area locator,
   route planning and crumb-following logic, together with theorems that
   settle the specification claims against it.

   External collaborators that are not part of this source file (the game
   SDK vector math, the ray-cast primitives, the CNavFile mesh records, the
   micropather search oracle and the Timer class) are modelled from the
   specification as abstract parameters or small definitions; each such
   definition carries a doc comment saying so. -/

namespace NavParser

noncomputable section

/-- A 3-D vector with real coordinates; models the game SDK Vector type
    (floating point modelled as real numbers). -/
structure Vec where
  x : ℝ
  y : ℝ
  z : ℝ

instance : DecidableEq Vec := fun a b => Classical.propDecidable (a = b)

/-- Source constant PLAYER_WIDTH = 49. -/
def PLAYER_WIDTH : ℝ := 49

/-- Source constant HALF_PLAYER_WIDTH = PLAYER_WIDTH / 2. -/
def HALF_PLAYER_WIDTH : ℝ := PLAYER_WIDTH / 2

/-- Source constant PLAYER_JUMP_HEIGHT = 41.5. -/
def PLAYER_JUMP_HEIGHT : ℝ := 41.5

/-- Squared Euclidean distance between two vectors. -/
def Vec.distSq (a b : Vec) : ℝ :=
  (a.x - b.x) ^ 2 + (a.y - b.y) ^ 2 + (a.z - b.z) ^ 2

/-- Modelled from the spec: straight-line distance (the SDK Vector.DistTo,
    which is not part of this source file). -/
def Vec.dist (a b : Vec) : ℝ := Real.sqrt (Vec.distSq a b)

/-- Modelled from the spec: the unit direction of a vector flattened onto the
    horizontal plane.  This stands for the SDK round trip NormalizeInPlace /
    VectorAngles / GetForwardVector used by handleDropdown: flattening sets
    z to 0, and comparing the resulting angles of two flattened vectors is
    the same as comparing their unit directions. -/
def flatDir (v : Vec) : Vec :=
  let len := Real.sqrt (v.x ^ 2 + v.y ^ 2)
  ⟨v.x / len, v.y / len, 0⟩

/-- Embedding of handleDropdown (navparser.cpp lines 112-137).  Returns the
    corrected current position: on a steep drop toward next_pos the point is
    pushed forward by one player width along the flattened direction, and
    collapsed onto next_pos when that projection overshoots (detected by the
    flattened direction changing). -/
def handleDropdown (current_pos next_pos : Vec) : Vec :=
  let to_target : Vec := ⟨next_pos.x - current_pos.x, next_pos.y - current_pos.y, next_pos.z - current_pos.z⟩
  if -to_target.z > PLAYER_JUMP_HEIGHT then
    let dir := flatDir to_target
    let moved : Vec := ⟨current_pos.x + PLAYER_WIDTH * dir.x, current_pos.y + PLAYER_WIDTH * dir.y, current_pos.z + PLAYER_WIDTH * dir.z⟩
    let new_to_target : Vec := ⟨next_pos.x - moved.x, next_pos.y - moved.y, next_pos.z - moved.z⟩
    if flatDir to_target ≠ flatDir new_to_target then next_pos else moved
  else current_pos

/-- Embedding of the navPoints triple (current, center, next). -/
structure NavPoints where
  current : Vec
  center : Vec
  next : Vec

/-- Embedding of a CNavArea as used by this file: identity (standing for the
    pointer), center, corner extents, attribute bitmask and outbound
    connections (area identities, standing for the NavConnect pointers).
    getNearestPoint comes from CNavFile, which is not part of this source
    file, so it is carried as an abstract per-area function of the 2-D query
    point. -/
structure Area where
  id : Nat
  center : Vec
  nwCorner : Vec
  seCorner : Vec
  attributeFlags : Nat
  connections : List Nat
  nearestPoint : ℝ → ℝ → Vec

/-- Modelled from the spec: CNavArea.IsOverlapping, the 2-D footprint
    containment test (CNavFile is not part of this source file). -/
def Area.isOverlapping (a : Area) (p : Vec) : Prop :=
  a.nwCorner.x ≤ p.x ∧ p.x ≤ a.seCorner.x ∧ a.nwCorner.y ≤ p.y ∧ p.y ≤ a.seCorner.y

instance (a : Area) (p : Vec) : Decidable (a.isOverlapping p) :=
  Classical.propDecidable _

/-- Embedding of determinePoints (navparser.cpp lines 149-167): entry point
    is the current area center, exit point is the next area center, and the
    mid point is the boundary point of the current area nearest to the next
    center, unless that point is aligned with neither center on either axis,
    in which case the boundary point of the next area is used. -/
def determinePoints (current next : Area) : NavPoints :=
  let area_center := current.center
  let next_center := next.center
  let area_closest := current.nearestPoint next_center.x next_center.y
  let next_closest := next.nearestPoint area_center.x area_center.y
  let center_point :=
    if area_closest.x ≠ area_center.x ∧ area_closest.y ≠ area_center.y ∧
        area_closest.x ≠ next_center.x ∧ area_closest.y ≠ next_center.y then
      next_closest
    else area_closest
  ⟨area_center, center_point, next_center⟩

/-- Embedding of struct CachedConnection (navparser.cpp lines 94-98). -/
structure CachedConnection where
  expire_tick : ℤ
  vischeck_state : Bool
deriving DecidableEq

/-- Cache key: the ordered pair of area identities (the pointer pair). -/
abbrev CacheKey := Nat × Nat

/-- The vischeck_cache: an association list with unique keys, modelling the
    unordered_map from area pairs to CachedConnection. -/
abbrev Cache := List (CacheKey × CachedConnection)

/-- Lookup in the vischeck cache (unordered_map find). -/
def cacheFind : Cache → CacheKey → Option CachedConnection
  | [], _ => none
  | e :: rest, k => if e.1 = k then some e.2 else cacheFind rest k

/-- Insert or assign in the vischeck cache (unordered_map operator[]). -/
def cacheSet (c : Cache) (k : CacheKey) (v : CachedConnection) : Cache :=
  if (cacheFind c k).isSome then
    c.map fun e => if e.1 = k then (k, v) else e
  else c ++ [(k, v)]

/-- Embedding of micropather StateCost: a neighbor area together with the
    edge cost handed to the search oracle. -/
structure StateCost where
  area : Area
  cost : ℝ

/-- The environment of a cost evaluation: the visibility oracle standing for
    IsPlayerPassableNavigation (two offset ray casts against world geometry,
    external to this embedding), the current tick count, and the tick
    interval, all read from globals in the source. -/
structure Env where
  vis : Vec → Vec → Bool
  tickcount : ℤ
  interval_per_tick : ℝ

/-- Expiry tick written on a cache miss: tickcount + int(10 / interval), the
    C++ int cast modelled as the floor (the quotient is positive). -/
def cacheExpire (env : Env) : ℤ :=
  env.tickcount + Int.floor ((10 : ℝ) / env.interval_per_tick)

/-- The vertical delta computed by AdjacentCost (navparser.cpp line 196):
    entry waypoint z minus mid waypoint z. -/
def heightDiff (area next : Area) : ℝ :=
  (determinePoints area next).current.z - (determinePoints area next).center.z

/-- The waypoint triple after the dropdown corrections and the jump-height
    raise applied by AdjacentCost (navparser.cpp lines 203-209). -/
def edgePoints (area next : Area) : NavPoints :=
  let points := determinePoints area next
  let p1 := handleDropdown points.current points.center
  let p2 := handleDropdown points.center points.next
  ⟨⟨p1.x, p1.y, p1.z + PLAYER_JUMP_HEIGHT⟩,
   ⟨p2.x, p2.y, p2.z + PLAYER_JUMP_HEIGHT⟩,
   ⟨points.next.x, points.next.y, points.next.z + PLAYER_JUMP_HEIGHT⟩⟩

/-- Resolve a connection identity to its area in the mesh (stands for the
    NavConnect area pointer dereference). -/
def findArea (areas : List Area) (cid : Nat) : Option Area :=
  areas.find? fun a => a.id == cid

/-- One iteration of the AdjacentCost connection loop (navparser.cpp lines
    192-240), threading the vischeck cache and the accumulated adjacency
    list.  Mirrors the source: the height gate, the cache hit branch that
    reads only vischeck_state, and the cache miss branch that runs the two
    visibility checks, stores a fresh entry and accepts the edge when the
    checks pass or the height delta marked it allowed. -/
def adjacentCostStep (env : Env) (areas : List Area) (area : Area)
    (st : Cache × List StateCost) (cid : Nat) : Cache × List StateCost :=
  match findArea areas cid with
  | none => st
  | some next =>
    if heightDiff area next > PLAYER_JUMP_HEIGHT then st
    else
      let pts := edgePoints area next
      match cacheFind st.1 (area.id, cid) with
      | some cached =>
        if cached.vischeck_state = true ∨ heightDiff area next ≤ -PLAYER_JUMP_HEIGHT then
          (st.1, st.2 ++ [⟨next, Vec.dist next.center area.center⟩])
        else st
      | none =>
        if env.vis pts.current pts.center = true ∧ env.vis pts.center pts.next = true then
          (cacheSet st.1 (area.id, cid) ⟨cacheExpire env, true⟩,
            st.2 ++ [⟨next, Vec.dist pts.next pts.current⟩])
        else
          if heightDiff area next ≤ -PLAYER_JUMP_HEIGHT then
            (cacheSet st.1 (area.id, cid) ⟨cacheExpire env, false⟩,
              st.2 ++ [⟨next, Vec.dist pts.next pts.current⟩])
          else
            (cacheSet st.1 (area.id, cid) ⟨cacheExpire env, false⟩, st.2)

/-- Embedding of Map.AdjacentCost (navparser.cpp lines 189-241): fold the
    connection loop over the outbound connections of the area, starting from
    the current cache and an empty adjacency vector. -/
def AdjacentCost (env : Env) (areas : List Area) (area : Area) (cache : Cache) :
    Cache × List StateCost :=
  area.connections.foldl (adjacentCostStep env areas area) (cache, [])

/-- Accumulator of the findClosestNavSquare scan: the running distance and
    area of the overlap-and-visibility candidate and of the plain nearest
    candidate.  FLT_MAX is modelled as the top element. -/
structure LocAcc where
  ovBestDist : WithTop ℝ
  bestDist : WithTop ℝ
  ovBest : Option Area
  best : Option Area

/-- One iteration of the findClosestNavSquare loop (navparser.cpp lines
    251-268): update the nearest-by-center candidate, then skip the area
    unless it beats the overlap candidate distance, overlaps the query
    point, and is visible from the jump-height-raised query point. -/
def locStep (visP : Vec → Vec → Bool) (vec : Vec) (acc : LocAcc) (i : Area) : LocAcc :=
  let d : WithTop ℝ := ((Vec.dist i.center vec : ℝ) : WithTop ℝ)
  let acc1 := if d < acc.bestDist then { acc with bestDist := d, best := some i } else acc
  if acc1.ovBestDist < d ∨ ¬ i.isOverlapping vec ∨
      visP ⟨vec.x, vec.y, vec.z + PLAYER_JUMP_HEIGHT⟩
        ⟨i.center.x, i.center.y, i.center.z + PLAYER_JUMP_HEIGHT⟩ = false then
    acc1
  else { acc1 with ovBestDist := d, ovBest := some i }

/-- Embedding of Map.findClosestNavSquare (navparser.cpp lines 244-273).
    The visibility oracle visP stands for IsVectorVisibleNavigation. -/
def findClosestNavSquare (visP : Vec → Vec → Bool) (areas : List Area) (vec : Vec) :
    Option Area :=
  let r := areas.foldl (locStep visP vec) ⟨⊤, ⊤, none, none⟩
  match r.ovBest with
  | some a => some a
  | none => r.best

/-- Embedding of enum NavState. -/
inductive NavState where
  | Unavailable
  | Active
deriving DecidableEq

/-- The Map state the claims need: parse state, mesh areas, vischeck cache. -/
structure Map where
  state : NavState
  areas : List Area
  vischeck_cache : Cache

/-- The erase loop of Map.updateIgnores (navparser.cpp lines 309-318):
    removes every entry whose expire_tick is before the given tick count and
    reports whether anything was erased. -/
def sweepCache (tickcount : ℤ) : Cache → Cache × Bool
  | [] => ([], false)
  | e :: rest =>
    let r := sweepCache tickcount rest
    if e.2.expire_tick < tickcount then (r.1, true) else (e :: r.1, r.2)

/-- Embedding of Map.updateIgnores (navparser.cpp lines 302-321).  The
    despam Timer is external and modelled as a boolean input saying whether
    the one-second cadence fired; the returned boolean records whether
    pather.Reset() was invoked (that is, whether anything was erased). -/
def updateIgnores (despamFired : Bool) (tickcount : ℤ) (cache : Cache) : Cache × Bool :=
  if despamFired = true then sweepCache tickcount cache
  else (cache, false)

/-- Modelled from the spec: the micropather result enum value NO_SOLUTION
    (SOLVED = 0, NO_SOLUTION = 1, START_END_SAME = 2); micropather is the
    external search oracle and is not part of this source file. -/
def NO_SOLUTION : ℤ := 1

/-- Embedding of Map.findPath (navparser.cpp lines 274-300).  The oracle
    solve stands for pather.Solve, modelled from the spec: it produces the
    ordered node sequence on success and a no-solution signal otherwise, in
    which case the freshly constructed local path vector is left empty.  The
    source then tests the constant condition 0 == NO_SOLUTION instead of the
    actual result, which is embedded literally. -/
def findPath (m : Map) (solve : Area → Area → Option (List Area))
    (localArea dest : Area) : List Area :=
  if m.state ≠ NavState.Active then []
  else
    let pathNodes : List Area := (solve localArea dest).getD []
    if (0 : ℤ) = NO_SOLUTION then [] else pathNodes

/-- Embedding of struct Crumb: an optional owning area (none for the final
    destination crumb) and a waypoint. -/
structure Crumb where
  navarea : Option Area
  vec : Vec

/-- The crumb expansion loop of NavEngine.navTo (navparser.cpp lines
    396-415): every area except the last yields the two dropdown-corrected
    waypoints toward its successor, the last area yields its center. -/
def expandCrumbs : List Area → List Crumb
  | [] => []
  | [a] => [⟨some a, a.center⟩]
  | a :: next :: rest =>
    let points := determinePoints a next
    let p1 := handleDropdown points.current points.center
    let p2 := handleDropdown points.center points.next
    ⟨some a, p1⟩ :: ⟨some a, p2⟩ :: expandCrumbs (next :: rest)

/-- Embedding of NavEngine.isReady: the enabled setting and an Active map
    (map existence is implicit in having a Map value). -/
def isReady (enabled : Bool) (m : Map) : Bool :=
  enabled && decide (m.state = NavState.Active)

/-- Embedding of NavEngine.navTo (navparser.cpp lines 375-420), returning
    the reported boolean and the resulting crumb queue.  The unused
    priority / repath parameters of the source signature are omitted; the
    crumb queue is passed in and out explicitly (it is a global in the
    source).  On a ready engine the queue is cleared first; failures to
    resolve areas, an empty search result, or an empty path after dropping
    the start area all report false with the queue left cleared. -/
def navTo (enabled : Bool) (m : Map) (visP : Vec → Vec → Bool)
    (solve : Area → Area → Option (List Area)) (origin destination : Vec)
    (nav_to_local : Bool) (crumbs : List Crumb) : Bool × List Crumb :=
  if isReady enabled m = false then (false, crumbs)
  else
    match findClosestNavSquare visP m.areas origin,
        findClosestNavSquare visP m.areas destination with
    | some start_area, some dest_area =>
      let path := findPath m solve start_area dest_area
      if path.isEmpty then (false, [])
      else
        let path2 := if nav_to_local = false then path.drop 1 else path
        if nav_to_local = false ∧ path2.isEmpty then (false, [])
        else (true, expandCrumbs path2 ++ [⟨none, destination⟩])
    | _, _ => (false, [])

/-- Source constant IN_JUMP (game SDK input bit, modelled from the spec). -/
def IN_JUMP : Nat := 2

/-- Source constant IN_DUCK (game SDK input bit, modelled from the spec). -/
def IN_DUCK : Nat := 4

/-- Modelled from the spec: the no-jump area attribute bit (CNavFile enum,
    not part of this source file). -/
def NAV_MESH_NO_JUMP : Nat := 8

/-- Modelled from the spec: the stairs area attribute bit (CNavFile enum,
    not part of this source file). -/
def NAV_MESH_STAIRS : Nat := 4096

/-- Per-tick inputs of FollowCrumbs that come from the game or from the
    external Timer class: agent position, whether the estimated velocity
    exceeds the epsilon, the weapon state flags, the two timer checks
    (last_jump.check 200 and inactivity.check of half the stuck time), the
    ground flag, and the visibility oracle used by the locator. -/
structure FollowEnv where
  origin : Vec
  velocityAbove : Bool
  holding_sniper_rifle : Bool
  bZoomed : Bool
  bRevved : Bool
  bRevving : Bool
  lastJumpElapsed : Bool
  inactivityHalfStuck : Bool
  onGround : Bool
  visP : Vec → Vec → Bool

/-- The mutable module state FollowCrumbs reads and writes: the crumb
    queue, the crouch flag and the ticks-since-jump counter. -/
structure FollowState where
  crumbs : List Crumb
  crouch : Bool
  ticks_since_jump : ℤ

/-- Outcome of one FollowCrumbs tick: the input button bits emitted this
    tick, the updated state, and the WalkTo target if any. -/
structure FollowOut where
  buttons : Nat
  state : FollowState
  walkTarget : Option Vec

/-- Embedding of NavEngine.FollowCrumbs (navparser.cpp lines 443-508): the
    arrival pop, the jump condition (weapon gates, vertical delta or stuck
    timer, both behind the jump interval timer), the no-jump area
    suppression via findClosestNavSquare, the jump-then-crouch emission with
    its counter bookkeeping, and the final WalkTo.  Timer update calls have
    no effect on the emitted buttons and are not tracked. -/
def FollowCrumbs (env : FollowEnv) (areas : List Area) (st : FollowState) : FollowOut :=
  match st.crumbs with
  | [] => ⟨0, st, none⟩
  | c0 :: rest =>
    let crumbs1 := if Vec.dist c0.vec env.origin < 50 then rest else c0 :: rest
    match crumbs1 with
    | [] => ⟨0, ⟨[], st.crouch, st.ticks_since_jump⟩, none⟩
    | head :: tail =>
      have : Decidable ((¬ (env.holding_sniper_rifle = true ∧ env.bZoomed = true) ∧
          ¬ (env.bRevved = true ∨ env.bRevving = true) ∧
          (st.crouch = true ∨ head.vec.z - env.origin.z > 18) ∧
          env.lastJumpElapsed = true) ∨
          (env.lastJumpElapsed = true ∧ env.inactivityHalfStuck = true)) :=
        Classical.propDecidable _
      if (¬ (env.holding_sniper_rifle = true ∧ env.bZoomed = true) ∧
          ¬ (env.bRevved = true ∨ env.bRevving = true) ∧
          (st.crouch = true ∨ head.vec.z - env.origin.z > 18) ∧
          env.lastJumpElapsed = true) ∨
          (env.lastJumpElapsed = true ∧ env.inactivityHalfStuck = true) then
        let allowJump :=
          match findClosestNavSquare env.visP areas env.origin with
          | none => true
          | some localArea =>
            decide (localArea.attributeFlags &&& (NAV_MESH_NO_JUMP ||| NAV_MESH_STAIRS) = 0)
        if allowJump = true then
          let buttons := if st.crouch = true then IN_DUCK else IN_JUMP
          let tsj := (if st.crouch = true then st.ticks_since_jump else 0) + 1
          let crouch2 := if env.onGround = true ∧ tsj > 3 then false else true
          ⟨buttons, ⟨head :: tail, crouch2, tsj⟩, some head.vec⟩
        else ⟨0, ⟨head :: tail, st.crouch, st.ticks_since_jump⟩, some head.vec⟩
      else ⟨0, ⟨head :: tail, st.crouch, st.ticks_since_jump⟩, some head.vec⟩

/-- Alignment of a candidate mid point with either area center on either
    axis: the negation of the fallback condition tested by determinePoints. -/
def alignedWith (p ca cb : Vec) : Prop :=
  p.x = ca.x ∨ p.y = ca.y ∨ p.x = cb.x ∨ p.y = cb.y

/-- The overlap-and-visibility test of the findClosestNavSquare scan: the
    area footprint contains the query point and the jump-height-raised
    centers are mutually visible. -/
def Qualifies (visP : Vec → Vec → Bool) (vec : Vec) (a : Area) : Prop :=
  a.isOverlapping vec ∧
    visP ⟨vec.x, vec.y, vec.z + PLAYER_JUMP_HEIGHT⟩
      ⟨a.center.x, a.center.y, a.center.z + PLAYER_JUMP_HEIGHT⟩ = true

/-- Two cache entries agree in shape when they have the same key and the
    same cached visibility boolean; the expiry tick is unconstrained. -/
abbrev entryShape (a b : CacheKey × CachedConnection) : Prop :=
  a.1 = b.1 ∧ a.2.vischeck_state = b.2.vischeck_state

/-- Two caches agree in shape when they list entries of the same shape in
    the same order. -/
abbrev SameShape (c1 c2 : Cache) : Prop := List.Forall₂ entryShape c1 c2

/-- Loop invariant of the findClosestNavSquare scan over the processed
    prefix of the area list. -/
abbrev LocInv (visP : Vec → Vec → Bool) (vec : Vec) (processed : List Area) (acc : LocAcc) : Prop :=
  (acc.ovBest = none → acc.ovBestDist = ⊤ ∧ ∀ a ∈ processed, ¬ Qualifies visP vec a) ∧
  (∀ o, acc.ovBest = some o → o ∈ processed ∧ Qualifies visP vec o) ∧
  (acc.best = none → processed = [] ∧ acc.bestDist = ⊤) ∧
  (∀ b, acc.best = some b → b ∈ processed ∧
    acc.bestDist = ((Vec.dist b.center vec : ℝ) : WithTop ℝ) ∧
    ∀ a ∈ processed, acc.bestDist ≤ ((Vec.dist a.center vec : ℝ) : WithTop ℝ))

/-- Witness fixture: a visibility oracle that always reports blocked. -/
def wVisFalse : Vec → Vec → Bool := fun _ _ => false

/-- Witness fixture: a visibility oracle that always reports clear. -/
def wVisTrue : Vec → Vec → Bool := fun _ _ => true

/-- Witness fixture: a lone area whose attribute mask has the no-jump bit. -/
def wAreaSolo : Area where
  id := 1
  center := ⟨0, 0, 0⟩
  nwCorner := ⟨0, 0, 0⟩
  seCorner := ⟨0, 0, 0⟩
  attributeFlags := 8
  connections := []
  nearestPoint := fun _ _ => ⟨0, 0, 0⟩

/-- Witness fixture: an Active map holding only wAreaSolo. -/
def wMapSolo : Map := ⟨NavState.Active, [wAreaSolo], []⟩

/-- Witness fixture: a query point. -/
def wOrigin : Vec := ⟨5, 5, 0⟩

/-- Witness fixture: a search oracle that always signals no solution. -/
def wSolveNone : Area → Area → Option (List Area) := fun _ _ => none

/-- Witness fixture: second area of a four-area route. -/
def wAreaB : Area where
  id := 2
  center := ⟨100, 0, 0⟩
  nwCorner := ⟨0, 0, 0⟩
  seCorner := ⟨0, 0, 0⟩
  attributeFlags := 0
  connections := []
  nearestPoint := fun _ _ => ⟨100, 0, 0⟩

/-- Witness fixture: third area of a four-area route. -/
def wAreaC : Area where
  id := 3
  center := ⟨200, 0, 0⟩
  nwCorner := ⟨0, 0, 0⟩
  seCorner := ⟨0, 0, 0⟩
  attributeFlags := 0
  connections := []
  nearestPoint := fun _ _ => ⟨200, 0, 0⟩

/-- Witness fixture: fourth area of a four-area route. -/
def wAreaD : Area where
  id := 4
  center := ⟨300, 0, 0⟩
  nwCorner := ⟨0, 0, 0⟩
  seCorner := ⟨0, 0, 0⟩
  attributeFlags := 0
  connections := []
  nearestPoint := fun _ _ => ⟨300, 0, 0⟩

/-- Witness fixture: a search oracle that always returns the route through
    the four witness areas. -/
def wSolveABCD : Area → Area → Option (List Area) :=
  fun _ _ => some [wAreaSolo, wAreaB, wAreaC, wAreaD]

/-- Fixture for the height-logic evaluation: cost environment with blocked
    visibility, tick 100, tick interval 1/64. -/
def wEnvF : Env := ⟨wVisFalse, 100, 1 / 64⟩

/-- Fixture: cost environment with clear visibility, tick 100, interval 1/64. -/
def wEnvT : Env := ⟨wVisTrue, 100, 1 / 64⟩

/-- Fixture: area whose mid waypoint toward its neighbor lies 100 units
    above its center (a climb far beyond jump height). -/
def wClimbA : Area where
  id := 1
  center := ⟨0, 0, 0⟩
  nwCorner := ⟨0, 0, 0⟩
  seCorner := ⟨0, 0, 0⟩
  attributeFlags := 0
  connections := [2]
  nearestPoint := fun _ _ => ⟨0, 0, 100⟩

/-- Fixture: the elevated neighbor of wClimbA. -/
def wClimbB : Area where
  id := 2
  center := ⟨0, 0, 100⟩
  nwCorner := ⟨0, 0, 0⟩
  seCorner := ⟨0, 0, 0⟩
  attributeFlags := 0
  connections := []
  nearestPoint := fun _ _ => ⟨0, 0, 100⟩

/-- Fixture: area whose mid waypoint toward its neighbor lies 100 units
    below its center (a dropdown far beyond jump height). -/
def wDropA : Area where
  id := 1
  center := ⟨0, 0, 0⟩
  nwCorner := ⟨0, 0, 0⟩
  seCorner := ⟨0, 0, 0⟩
  attributeFlags := 0
  connections := [2]
  nearestPoint := fun _ _ => ⟨0, 0, -100⟩

/-- Fixture: the lowered neighbor of wDropA. -/
def wDropB : Area where
  id := 2
  center := ⟨0, 0, -100⟩
  nwCorner := ⟨0, 0, 0⟩
  seCorner := ⟨0, 0, 0⟩
  attributeFlags := 0
  connections := []
  nearestPoint := fun _ _ => ⟨0, 0, -100⟩

/-- Fixture: flat area with one connection and an aligned mid waypoint. -/
def wFlatA : Area where
  id := 1
  center := ⟨0, 0, 0⟩
  nwCorner := ⟨0, 0, 0⟩
  seCorner := ⟨0, 0, 0⟩
  attributeFlags := 0
  connections := [2]
  nearestPoint := fun _ _ => ⟨1, 0, 0⟩

/-- Fixture: the flat neighbor of wFlatA. -/
def wFlatB : Area where
  id := 2
  center := ⟨2, 0, 0⟩
  nwCorner := ⟨0, 0, 0⟩
  seCorner := ⟨0, 0, 0⟩
  attributeFlags := 0
  connections := []
  nearestPoint := fun _ _ => ⟨1, 0, 0⟩

/-- Fixture: a cache whose single entry for the pair (1, 2) is cached
    visible but already past its expiry tick at tick 100. -/
def wStale : Cache := [((1, 2), ⟨0, true⟩)]

/-- Fixture: the same cache entry with a far-future expiry tick. -/
def wFreshened : Cache := [((1, 2), ⟨999, true⟩)]

/-- Fixture for the cost evaluation: area with entry waypoint at the origin
    and an unaligned own boundary point, forcing the fallback mid point. -/
def wCostA : Area where
  id := 1
  center := ⟨0, 0, 0⟩
  nwCorner := ⟨0, 0, 0⟩
  seCorner := ⟨0, 0, 0⟩
  attributeFlags := 0
  connections := [2]
  nearestPoint := fun _ _ => ⟨1, 2, 0⟩

/-- Fixture: neighbor of wCostA with exit waypoint at distance 10 from the
    entry and distance 5 from the mid waypoint. -/
def wCostB : Area where
  id := 2
  center := ⟨6, 8, 0⟩
  nwCorner := ⟨0, 0, 0⟩
  seCorner := ⟨0, 0, 0⟩
  attributeFlags := 0
  connections := []
  nearestPoint := fun _ _ => ⟨3, 4, 0⟩

/-- Fixture: per-tick inputs for the crumb follower with both timers
    elapsed and no weapon gate active. -/
def wFollowEnv : FollowEnv :=
  ⟨wOrigin, false, false, false, false, false, true, true, false, wVisFalse⟩

/-- Fixture: follower state holding one distant destination crumb. -/
def wFollowState : FollowState := ⟨[⟨none, ⟨1000, 0, 0⟩⟩], false, 0⟩

/-- Evaluation helper: on the one-area witness mesh the locator returns the
    lone area for every query point. -/
lemma wLocSolo (v : Vec) : findClosestNavSquare wVisFalse [wAreaSolo] v = some wAreaSolo := by
  unfold findClosestNavSquare locStep wVisFalse
  simp

/-- Evaluation helper: on the witness map with the no-solution oracle,
    navTo reports failure with an empty crumb queue. -/
lemma wNavToNone (ntl : Bool) (crumbs0 : List Crumb) :
    navTo true wMapSolo wVisFalse wSolveNone wOrigin wOrigin ntl crumbs0 = (false, []) := by
  unfold navTo
  rw [if_neg (by simp [isReady, wMapSolo])]
  simp only [wMapSolo, wLocSolo]
  simp [findPath, wSolveNone, NO_SOLUTION]

/-- Claim C4: a cache-maintenance sweep (updateIgnores with the cadence
    timer fired) removes exactly the entries whose expiry tick lies before
    the current tick, leaves every unexpired entry untouched in order, and
    invokes the search oracle reset exactly when at least one entry was
    purged. -/
theorem c4_sweep_removes_exactly_expired (tickcount : ℤ) (cache : Cache) :
    (updateIgnores true tickcount cache).1 =
      cache.filter (fun e => !decide (e.2.expire_tick < tickcount)) ∧
    ((updateIgnores true tickcount cache).2 = true ↔
      ∃ e ∈ cache, e.2.expire_tick < tickcount) := by
  have h : ∀ c : Cache,
      (sweepCache tickcount c).1 =
        c.filter (fun e => !decide (e.2.expire_tick < tickcount)) ∧
      ((sweepCache tickcount c).2 = true ↔ ∃ e ∈ c, e.2.expire_tick < tickcount) := by
    intro c
    induction c with
    | nil => simp [sweepCache]
    | cons e rest ih =>
      by_cases he : e.2.expire_tick < tickcount
      · simp [sweepCache, he, ih.1, ih.2]
      · simp [sweepCache, he, ih.1, ih.2]
  simpa [updateIgnores] using h cache

/-- Claim C7: the mid point selected by determinePoints is axis-aligned
    with one of the two area centers whenever either boundary candidate is,
    and is the boundary point of the next area when neither candidate is
    aligned. -/
theorem c7_midpoint_alignment (current next : Area) :
    ((alignedWith (current.nearestPoint next.center.x next.center.y) current.center next.center ∨
      alignedWith (next.nearestPoint current.center.x current.center.y) current.center next.center) →
      alignedWith (determinePoints current next).center current.center next.center) ∧
    ((¬ alignedWith (current.nearestPoint next.center.x next.center.y) current.center next.center ∧
      ¬ alignedWith (next.nearestPoint current.center.x current.center.y) current.center next.center) →
      (determinePoints current next).center = next.nearestPoint current.center.x current.center.y) := by
  by_cases hc :
      alignedWith (current.nearestPoint next.center.x next.center.y) current.center next.center
  · have hmid : (determinePoints current next).center =
        current.nearestPoint next.center.x next.center.y := by
      simp only [determinePoints]
      rw [if_neg (by unfold alignedWith at hc; tauto)]
    constructor
    · intro _
      rw [hmid]
      exact hc
    · intro h
      exact absurd hc h.1
  · have hmid : (determinePoints current next).center =
        next.nearestPoint current.center.x current.center.y := by
      simp only [determinePoints]
      rw [if_pos (by unfold alignedWith at hc; push_neg at hc; tauto)]
    constructor
    · intro h
      rw [hmid]
      rcases h with h | h
      · exact absurd h hc
      · exact h
    · intro _
      exact hmid

/-- Witness for c7_midpoint_alignment: on the flat fixture pair the own
    boundary candidate is aligned, so the selected mid point is aligned. -/
theorem c7_midpoint_alignment_witness :
    alignedWith (determinePoints wFlatA wFlatB).center wFlatA.center wFlatB.center :=
  (c7_midpoint_alignment wFlatA wFlatB).1
    (Or.inl (by unfold alignedWith wFlatA wFlatB; simp))

/-- Claim C1: when the search oracle signals no solution for the queried
    start and destination areas, findPath returns the empty sequence, and
    navTo reports failure as boolean false, committing no route. -/
theorem c1_no_solution_reports_false (enabled : Bool) (m : Map)
    (visP : Vec → Vec → Bool) (solve : Area → Area → Option (List Area))
    (origin destination : Vec) (nav_to_local : Bool) (crumbs0 : List Crumb)
    (A D : Area)
    (hs : findClosestNavSquare visP m.areas origin = some A)
    (hd : findClosestNavSquare visP m.areas destination = some D)
    (hsol : solve A D = none) :
    findPath m solve A D = [] ∧
    (navTo enabled m visP solve origin destination nav_to_local crumbs0).1 = false ∧
    ((navTo enabled m visP solve origin destination nav_to_local crumbs0).2 = [] ∨
     (navTo enabled m visP solve origin destination nav_to_local crumbs0).2 = crumbs0) := by
  have hfp : findPath m solve A D = [] := by
    unfold findPath
    by_cases hstate : m.state ≠ NavState.Active
    · rw [if_pos hstate]
    · rw [if_neg hstate]
      simp [hsol, NO_SOLUTION]
  refine ⟨hfp, ?_⟩
  unfold navTo
  by_cases hr : isReady enabled m = false
  · simp [hr]
  · rw [if_neg hr]
    simp only [hs, hd]
    simp [hfp]

/-- Witness for c1_no_solution_reports_false at the one-area fixture with
    the no-solution oracle. -/
theorem c1_no_solution_reports_false_witness :
    findPath wMapSolo wSolveNone wAreaSolo wAreaSolo = [] ∧
    (navTo true wMapSolo wVisFalse wSolveNone wOrigin wOrigin false []).1 = false ∧
    ((navTo true wMapSolo wVisFalse wSolveNone wOrigin wOrigin false []).2 = [] ∨
     (navTo true wMapSolo wVisFalse wSolveNone wOrigin wOrigin false []).2 = []) :=
  c1_no_solution_reports_false true wMapSolo wVisFalse wSolveNone wOrigin wOrigin false []
    wAreaSolo wAreaSolo (by simpa [wMapSolo] using wLocSolo wOrigin)
    (by simpa [wMapSolo] using wLocSolo wOrigin) rfl

/-- Claim C10: every failure of navTo on a ready engine leaves the crumb
    queue empty: the old route was cleared before any failure exit. -/
theorem c10_failure_leaves_queue_empty (enabled : Bool) (m : Map)
    (visP : Vec → Vec → Bool) (solve : Area → Area → Option (List Area))
    (origin destination : Vec) (nav_to_local : Bool) (crumbs0 : List Crumb)
    (hready : isReady enabled m = true)
    (hfail : (navTo enabled m visP solve origin destination nav_to_local crumbs0).1 = false) :
    (navTo enabled m visP solve origin destination nav_to_local crumbs0).2 = [] := by
  have hr : ¬ isReady enabled m = false := by simp [hready]
  unfold navTo at hfail ⊢
  rw [if_neg hr] at hfail ⊢
  rcases hA : findClosestNavSquare visP m.areas origin with _ | A
  · simp only [hA]
  · rcases hB : findClosestNavSquare visP m.areas destination with _ | B
    · simp only [hA, hB]
    · simp only [hA, hB] at hfail ⊢
      split_ifs at hfail ⊢ <;> rfl

/-- Witness for c10_failure_leaves_queue_empty: the no-solution oracle on
    the ready one-area fixture fails and leaves the queue empty. -/
theorem c10_failure_leaves_queue_empty_witness :
    (navTo true wMapSolo wVisFalse wSolveNone wOrigin wOrigin false
      [⟨none, wOrigin⟩]).2 = [] :=
  c10_failure_leaves_queue_empty true wMapSolo wVisFalse wSolveNone wOrigin wOrigin false
    [⟨none, wOrigin⟩] (by simp [isReady, wMapSolo])
    (by rw [wNavToNone])

/-- Claim C6: a route of four areas, navigated in the standard non-local
    mode, expands into exactly two crumbs for each intermediate area, one
    crumb at the last area center, and one terminal crumb carrying the raw
    destination with no area: six crumbs in total. -/
theorem c6_four_area_route_six_crumbs (enabled : Bool) (m : Map)
    (visP : Vec → Vec → Bool) (solve : Area → Area → Option (List Area))
    (origin destination : Vec) (crumbs0 : List Crumb) (A B C D E : Area)
    (hready : isReady enabled m = true)
    (hs : findClosestNavSquare visP m.areas origin = some A)
    (hd : findClosestNavSquare visP m.areas destination = some E)
    (hsol : solve A E = some [A, B, C, D]) :
    ∃ v1 v2 v3 v4,
      navTo enabled m visP solve origin destination false crumbs0 =
        (true, [⟨some B, v1⟩, ⟨some B, v2⟩, ⟨some C, v3⟩, ⟨some C, v4⟩,
                ⟨some D, D.center⟩, ⟨none, destination⟩]) := by
  have hstate : ¬ m.state ≠ NavState.Active := by
    unfold isReady at hready
    simp at hready
    simp [hready.2]
  have hfp : findPath m solve A E = [A, B, C, D] := by
    unfold findPath
    rw [if_neg hstate]
    simp [hsol, NO_SOLUTION]
  have hr : ¬ isReady enabled m = false := by simp [hready]
  have hnav : navTo enabled m visP solve origin destination false crumbs0 =
      (true, expandCrumbs [B, C, D] ++ [⟨none, destination⟩]) := by
    unfold navTo
    rw [if_neg hr]
    simp only [hs, hd, hfp]
    simp
  rw [hnav]
  have hexp : expandCrumbs [B, C, D] =
      [⟨some B, handleDropdown (determinePoints B C).current (determinePoints B C).center⟩,
       ⟨some B, handleDropdown (determinePoints B C).center (determinePoints B C).next⟩,
       ⟨some C, handleDropdown (determinePoints C D).current (determinePoints C D).center⟩,
       ⟨some C, handleDropdown (determinePoints C D).center (determinePoints C D).next⟩,
       ⟨some D, D.center⟩] := by
    simp [expandCrumbs]
  rw [hexp]
  exact ⟨_, _, _, _, rfl⟩

/-- Witness for c6_four_area_route_six_crumbs on the one-area fixture with
    an oracle producing the four-area route. -/
theorem c6_four_area_route_six_crumbs_witness :
    ∃ v1 v2 v3 v4,
      navTo true wMapSolo wVisFalse wSolveABCD wOrigin wOrigin false [] =
        (true, [⟨some wAreaB, v1⟩, ⟨some wAreaB, v2⟩, ⟨some wAreaC, v3⟩, ⟨some wAreaC, v4⟩,
                ⟨some wAreaD, wAreaD.center⟩, ⟨none, wOrigin⟩]) :=
  c6_four_area_route_six_crumbs true wMapSolo wVisFalse wSolveABCD wOrigin wOrigin []
    wAreaSolo wAreaB wAreaC wAreaD wAreaSolo (by simp [isReady, wMapSolo])
    (by simpa [wMapSolo] using wLocSolo wOrigin)
    (by simpa [wMapSolo] using wLocSolo wOrigin) rfl

/-- Claim C2: the height gate of the cost function is inverted with respect
    to the claim and to the source comments.  At a connection whose mid
    waypoint lies 100 units above the entry waypoint (an unjumpable climb)
    the edge is kept and marked allowed even though every visibility check
    fails, and at a connection whose mid waypoint lies 100 units below the
    entry waypoint (a legitimate dropdown) the edge is excluded outright. -/
theorem c2_height_gate_inverted :
    ((AdjacentCost wEnvF [wClimbA, wClimbB] wClimbA []).2.map (fun s => s.area.id) = [2]) ∧
    ((AdjacentCost wEnvF [wDropA, wDropB] wDropA []).2 = []) := by
  have hfA : findArea [wClimbA, wClimbB] 2 = some wClimbB := by
    simp [findArea, wClimbA, wClimbB]
  have hhA : heightDiff wClimbA wClimbB = -100 := by
    simp [heightDiff, determinePoints, wClimbA, wClimbB]
  have hfD : findArea [wDropA, wDropB] 2 = some wDropB := by
    simp [findArea, wDropA, wDropB]
  have hhD : heightDiff wDropA wDropB = 100 := by
    simp [heightDiff, determinePoints, wDropA, wDropB]
  constructor
  · unfold AdjacentCost
    rw [show wClimbA.connections = [2] from rfl]
    simp only [List.foldl_cons, List.foldl_nil, adjacentCostStep, hfA]
    rw [show wClimbA.id = 1 from rfl]
    norm_num [hhA, PLAYER_JUMP_HEIGHT, cacheFind, List.find?_nil,
      show wEnvF.vis = wVisFalse from rfl, wVisFalse]
    simp [show wClimbB.id = 2 from rfl]
  · unfold AdjacentCost
    rw [show wDropA.connections = [2] from rfl]
    simp only [List.foldl_cons, List.foldl_nil, adjacentCostStep, hfD]
    norm_num [hhD, PLAYER_JUMP_HEIGHT]

/-- Counterexample to claim C3: a cached entry for the pair (1, 2) whose
    expiry tick 0 lies before the evaluation tick 100 is still trusted: the
    cost evaluation accepts the edge from the stale cached-visible boolean,
    while a genuine cache miss under the same blocked-visibility oracle
    rejects the edge, so the evaluation does not behave like a cache miss. -/
theorem c3_expired_entry_still_trusted :
    cacheFind wStale (1, 2) = some ⟨0, true⟩ ∧
    (0 : ℤ) < wEnvF.tickcount ∧
    ((AdjacentCost wEnvF [wFlatA, wFlatB] wFlatA wStale).2.map (fun s => s.area.id) = [2]) ∧
    ((AdjacentCost wEnvF [wFlatA, wFlatB] wFlatA []).2 = []) := by
  have hf : findArea [wFlatA, wFlatB] 2 = some wFlatB := by
    simp [findArea, wFlatA, wFlatB]
  have hh : heightDiff wFlatA wFlatB = 0 := by
    simp [heightDiff, determinePoints, wFlatA, wFlatB]
  have hcf : cacheFind wStale (1, 2) = some ⟨0, true⟩ := by
    simp [cacheFind, wStale]
  refine ⟨hcf, by norm_num [wEnvF], ?_, ?_⟩
  · unfold AdjacentCost
    rw [show wFlatA.connections = [2] from rfl]
    simp only [List.foldl_cons, List.foldl_nil, adjacentCostStep, hf]
    rw [show wFlatA.id = 1 from rfl]
    rw [if_neg (by rw [hh]; norm_num [PLAYER_JUMP_HEIGHT])]
    rw [hcf]
    norm_num
    simp [show wFlatB.id = 2 from rfl]
  · unfold AdjacentCost
    rw [show wFlatA.connections = [2] from rfl]
    simp only [List.foldl_cons, List.foldl_nil, adjacentCostStep, hf]
    rw [show wFlatA.id = 1 from rfl]
    rw [if_neg (by rw [hh]; norm_num [PLAYER_JUMP_HEIGHT])]
    norm_num [hh, PLAYER_JUMP_HEIGHT, cacheFind, List.find?_nil,
      show wEnvF.vis = wVisFalse from rfl, wVisFalse]

/-- Shape agreement gives lookups with the same cached boolean. -/
lemma cacheFind_shape {c1 c2 : Cache} (h : SameShape c1 c2) (k : CacheKey) :
    Option.map CachedConnection.vischeck_state (cacheFind c1 k) =
      Option.map CachedConnection.vischeck_state (cacheFind c2 k) := by
  induction h with
  | nil => rfl
  | cons he ht ih =>
    rename_i a b l1 l2
    simp only [cacheFind]
    by_cases hk : a.1 = k
    · rw [if_pos hk, if_pos (by rw [← he.1]; exact hk)]
      simp [he.2]
    · rw [if_neg hk, if_neg (by rw [← he.1]; exact hk)]
      exact ih

/-- Shape agreement is preserved by inserting the same fresh entry. -/
lemma cacheSet_shape {c1 c2 : Cache} (h : SameShape c1 c2) (k : CacheKey)
    (v : CachedConnection) (h1 : cacheFind c1 k = none) (h2 : cacheFind c2 k = none) :
    SameShape (cacheSet c1 k v) (cacheSet c2 k v) := by
  unfold cacheSet
  rw [h1, h2]
  simp only [Option.isSome_none, Bool.false_eq_true, if_false]
  exact List.rel_append h (List.Forall₂.cons ⟨rfl, rfl⟩ List.Forall₂.nil)

/-- One connection step of the cost function reads a found cache entry only
    through its cached boolean: caches of the same shape produce the same
    adjacency output and caches that still agree in shape. -/
lemma adjacentCostStep_shape (env : Env) (areas : List Area) (area : Area) (cid : Nat)
    {c1 c2 : Cache} (out : List StateCost) (h : SameShape c1 c2) :
    SameShape (adjacentCostStep env areas area (c1, out) cid).1
        (adjacentCostStep env areas area (c2, out) cid).1 ∧
    (adjacentCostStep env areas area (c1, out) cid).2 =
        (adjacentCostStep env areas area (c2, out) cid).2 := by
  unfold adjacentCostStep
  cases hfa : findArea areas cid with
  | none => exact ⟨h, rfl⟩
  | some next =>
    dsimp only
    by_cases hgate : heightDiff area next > PLAYER_JUMP_HEIGHT
    · rw [if_pos hgate, if_pos hgate]
      exact ⟨h, rfl⟩
    · rw [if_neg hgate, if_neg hgate]
      have hmap := cacheFind_shape h (area.id, cid)
      cases h1 : cacheFind c1 (area.id, cid) with
      | none =>
        cases h2 : cacheFind c2 (area.id, cid) with
        | none =>
          dsimp only
          by_cases hv : env.vis (edgePoints area next).current (edgePoints area next).center = true ∧
              env.vis (edgePoints area next).center (edgePoints area next).next = true
          · rw [if_pos hv, if_pos hv]
            exact ⟨cacheSet_shape h _ _ h1 h2, rfl⟩
          · rw [if_neg hv, if_neg hv]
            by_cases hal : heightDiff area next ≤ -PLAYER_JUMP_HEIGHT
            · rw [if_pos hal, if_pos hal]
              exact ⟨cacheSet_shape h _ _ h1 h2, rfl⟩
            · rw [if_neg hal, if_neg hal]
              exact ⟨cacheSet_shape h _ _ h1 h2, rfl⟩
        | some e2 =>
          rw [h1, h2] at hmap
          simp at hmap
      | some e1 =>
        cases h2 : cacheFind c2 (area.id, cid) with
        | none =>
          rw [h1, h2] at hmap
          simp at hmap
        | some e2 =>
          rw [h1, h2] at hmap
          simp at hmap
          dsimp only
          by_cases hb : e1.vischeck_state = true ∨ heightDiff area next ≤ -PLAYER_JUMP_HEIGHT
          · rw [if_pos hb, if_pos (by rw [← hmap]; exact hb)]
            exact ⟨h, rfl⟩
          · rw [if_neg hb, if_neg (by rw [← hmap]; exact hb)]
            exact ⟨h, rfl⟩

/-- The connection fold of the cost function preserves cache shape
    agreement and yields the same adjacency output on both caches. -/
lemma adjacentCost_fold_shape (env : Env) (areas : List Area) (area : Area) :
    ∀ (conns : List Nat) {c1 c2 : Cache} {out : List StateCost}, SameShape c1 c2 →
    SameShape (conns.foldl (adjacentCostStep env areas area) (c1, out)).1
        (conns.foldl (adjacentCostStep env areas area) (c2, out)).1 ∧
    (conns.foldl (adjacentCostStep env areas area) (c1, out)).2 =
        (conns.foldl (adjacentCostStep env areas area) (c2, out)).2 := by
  intro conns
  induction conns with
  | nil =>
    intro c1 c2 out h
    exact ⟨h, rfl⟩
  | cons cid rest ih =>
    intro c1 c2 out h
    obtain ⟨hs, ho⟩ := adjacentCostStep_shape env areas area cid out h
    simp only [List.foldl_cons]
    rw [show adjacentCostStep env areas area (c1, out) cid =
          ((adjacentCostStep env areas area (c1, out) cid).1,
           (adjacentCostStep env areas area (c1, out) cid).2) from rfl,
        show adjacentCostStep env areas area (c2, out) cid =
          ((adjacentCostStep env areas area (c2, out) cid).1,
           (adjacentCostStep env areas area (c2, out) cid).2) from rfl,
        ← ho]
    exact ih hs

/-- Claim C3 (amended): a found cache entry is trusted regardless of its
    expiry tick.  The cost evaluation reads the cache only through entry
    keys and cached booleans: caches agreeing on those, with arbitrary
    expiry ticks, produce identical adjacency lists.  Expiry is enforced
    only by the periodic updateIgnores sweep, not at evaluation time. -/
theorem c3_amended_expiry_never_read_by_cost (env : Env) (areas : List Area)
    (area : Area) (c1 c2 : Cache) (h : SameShape c1 c2) :
    (AdjacentCost env areas area c1).2 = (AdjacentCost env areas area c2).2 :=
  (adjacentCost_fold_shape env areas area area.connections h).2

/-- Witness for c3_amended_expiry_never_read_by_cost: the stale cache and
    its freshened copy produce the same adjacency list. -/
theorem c3_amended_expiry_never_read_by_cost_witness :
    (AdjacentCost wEnvF [wFlatA, wFlatB] wFlatA wStale).2 =
      (AdjacentCost wEnvF [wFlatA, wFlatB] wFlatA wFreshened).2 :=
  c3_amended_expiry_never_read_by_cost wEnvF [wFlatA, wFlatB] wFlatA wStale wFreshened
    (List.Forall₂.cons ⟨rfl, rfl⟩ List.Forall₂.nil)

/-- Square root of a perfect square. -/
lemma sqrt_eval {a b : ℝ} (hb : 0 ≤ b) (h : b ^ 2 = a) : Real.sqrt a = b := by
  rw [← h, Real.sqrt_sq hb]

/-- Counterexample to claim C5: on the cost fixture the cache miss with both
    visibility checks passing accepts the edge with cost 10, the distance
    between the corrected entry and exit waypoints, while the distance
    between the mid and exit waypoints is 5, so the accepted cost is not the
    mid-to-exit distance. -/
theorem c5_cost_is_entry_to_exit :
    ((AdjacentCost wEnvT [wCostA, wCostB] wCostA []).2.map (fun s => s.cost) = [10]) ∧
    Vec.dist (edgePoints wCostA wCostB).center (edgePoints wCostA wCostB).next = 5 ∧
    (10 : ℝ) ≠ 5 := by
  have hfC : findArea [wCostA, wCostB] 2 = some wCostB := by
    simp [findArea, wCostA, wCostB]
  have hhC : heightDiff wCostA wCostB = 0 := by
    norm_num [heightDiff, determinePoints, wCostA, wCostB]
  have hpts : edgePoints wCostA wCostB =
      ⟨⟨0, 0, (41.5 : ℝ)⟩, ⟨3, 4, (41.5 : ℝ)⟩, ⟨6, 8, (41.5 : ℝ)⟩⟩ := by
    norm_num [edgePoints, determinePoints, handleDropdown, wCostA, wCostB, PLAYER_JUMP_HEIGHT]
  have hd10 : Vec.dist (⟨6, 8, (41.5 : ℝ)⟩ : Vec) ⟨0, 0, (41.5 : ℝ)⟩ = 10 := by
    unfold Vec.dist Vec.distSq
    exact sqrt_eval (by norm_num) (by norm_num)
  have hd5 : Vec.dist (⟨3, 4, (41.5 : ℝ)⟩ : Vec) ⟨6, 8, (41.5 : ℝ)⟩ = 5 := by
    unfold Vec.dist Vec.distSq
    exact sqrt_eval (by norm_num) (by norm_num)
  refine ⟨?_, by rw [hpts]; exact hd5, by norm_num⟩
  unfold AdjacentCost
  rw [show wCostA.connections = [2] from rfl]
  simp only [List.foldl_cons, List.foldl_nil, adjacentCostStep, hfC]
  rw [show wCostA.id = 1 from rfl]
  rw [if_neg (by rw [hhC]; norm_num [PLAYER_JUMP_HEIGHT])]
  rw [show cacheFind ([] : Cache) (1, 2) = none from rfl]
  rw [if_pos ⟨rfl, rfl⟩]
  simp [hpts, hd10]

/-- Claim C5 (amended): on a cache miss where both visibility checks pass,
    the edge is accepted with cost equal to the straight-line distance
    between the corrected entry and exit waypoints (not between the mid and
    exit waypoints), and a visible entry is cached expiring
    floor (10 / tick_interval) ticks ahead of the current tick. -/
theorem c5_amended_miss_both_pass (env : Env) (areas : List Area) (area next : Area)
    (cache : Cache) (cid : Nat)
    (hconn : area.connections = [cid])
    (hfind : findArea areas cid = some next)
    (hmiss : cacheFind cache (area.id, cid) = none)
    (hgate : ¬ heightDiff area next > PLAYER_JUMP_HEIGHT)
    (hv1 : env.vis (edgePoints area next).current (edgePoints area next).center = true)
    (hv2 : env.vis (edgePoints area next).center (edgePoints area next).next = true) :
    AdjacentCost env areas area cache =
      (cacheSet cache (area.id, cid) ⟨cacheExpire env, true⟩,
       [⟨next, Vec.dist (edgePoints area next).next (edgePoints area next).current⟩]) := by
  unfold AdjacentCost
  rw [hconn]
  simp only [List.foldl_cons, List.foldl_nil, adjacentCostStep, hfind]
  rw [if_neg hgate]
  rw [hmiss]
  rw [if_pos ⟨hv1, hv2⟩]
  simp

/-- Witness for c5_amended_miss_both_pass at the cost fixture. -/
theorem c5_amended_miss_both_pass_witness :
    AdjacentCost wEnvT [wCostA, wCostB] wCostA [] =
      (cacheSet [] (wCostA.id, 2) ⟨cacheExpire wEnvT, true⟩,
       [⟨wCostB, Vec.dist (edgePoints wCostA wCostB).next (edgePoints wCostA wCostB).current⟩]) :=
  c5_amended_miss_both_pass wEnvT [wCostA, wCostB] wCostA wCostB [] 2 rfl
    (by simp [findArea, wCostA, wCostB]) rfl
    (by norm_num [heightDiff, determinePoints, wCostA, wCostB, PLAYER_JUMP_HEIGHT])
    rfl rfl

/-- A bit set in the left mask stays set after widening the mask. -/
lemma and_lor_ne_zero {x a b : Nat} (h : x &&& a ≠ 0) : x &&& (a ||| b) ≠ 0 := by
  intro hz
  apply h
  apply Nat.eq_of_testBit_eq
  intro i
  have hzi := congrArg (fun n => Nat.testBit n i) hz
  simp only [Nat.testBit_and, Nat.testBit_or, Nat.zero_testBit] at hzi ⊢
  cases hx : Nat.testBit x i <;> cases ha : Nat.testBit a i <;> simp_all

/-- Claim C9: when the area located under the agent has the no-jump
    attribute bit set, FollowCrumbs never emits the jump input bit, whatever
    the crumb geometry, the stuck timers and the remaining inputs are. -/
theorem c9_no_jump_area_suppresses_jump (env : FollowEnv) (areas : List Area)
    (st : FollowState) (a : Area)
    (hloc : findClosestNavSquare env.visP areas env.origin = some a)
    (hflag : a.attributeFlags &&& NAV_MESH_NO_JUMP ≠ 0) :
    (FollowCrumbs env areas st).buttons &&& IN_JUMP = 0 := by
  have hallow : (match findClosestNavSquare env.visP areas env.origin with
      | none => true
      | some localArea =>
        decide (localArea.attributeFlags &&& (NAV_MESH_NO_JUMP ||| NAV_MESH_STAIRS) = 0)) = false := by
    rw [hloc]
    simp [and_lor_ne_zero hflag]
  unfold FollowCrumbs
  cases hcr : st.crumbs with
  | nil => simp
  | cons c0 rest =>
    dsimp only
    by_cases hpop : Vec.dist c0.vec env.origin < 50
    · rw [if_pos hpop]
      cases rest with
      | nil => simp
      | cons head tail =>
        dsimp only
        by_cases hw : (¬ (env.holding_sniper_rifle = true ∧ env.bZoomed = true) ∧
            ¬ (env.bRevved = true ∨ env.bRevving = true) ∧
            (st.crouch = true ∨ head.vec.z - env.origin.z > 18) ∧
            env.lastJumpElapsed = true) ∨
            (env.lastJumpElapsed = true ∧ env.inactivityHalfStuck = true)
        · rw [if_pos hw, hallow]
          simp
        · rw [if_neg hw]
          simp
    · rw [if_neg hpop]
      dsimp only
      by_cases hw : (¬ (env.holding_sniper_rifle = true ∧ env.bZoomed = true) ∧
          ¬ (env.bRevved = true ∨ env.bRevving = true) ∧
          (st.crouch = true ∨ c0.vec.z - env.origin.z > 18) ∧
          env.lastJumpElapsed = true) ∨
          (env.lastJumpElapsed = true ∧ env.inactivityHalfStuck = true)
      · rw [if_pos hw, hallow]
        simp
      · rw [if_neg hw]
        simp

/-- Witness for c9_no_jump_area_suppresses_jump on the one-area fixture
    whose attribute mask is exactly the no-jump bit. -/
theorem c9_no_jump_area_suppresses_jump_witness :
    (FollowCrumbs wFollowEnv [wAreaSolo] wFollowState).buttons &&& IN_JUMP = 0 :=
  c9_no_jump_area_suppresses_jump wFollowEnv [wAreaSolo] wFollowState wAreaSolo
    (by simpa [wFollowEnv] using wLocSolo wOrigin)
    (by simp [wAreaSolo, NAV_MESH_NO_JUMP])

/-- An area skipped for failing the overlap or visibility test does not
    qualify. -/
lemma not_qual_of_block {visP : Vec → Vec → Bool} {vec : Vec} {i : Area}
    (hov : ¬ i.isOverlapping vec ∨
      visP ⟨vec.x, vec.y, vec.z + PLAYER_JUMP_HEIGHT⟩
        ⟨i.center.x, i.center.y, i.center.z + PLAYER_JUMP_HEIGHT⟩ = false) :
    ¬ Qualifies visP vec i := by
  intro hq
  rcases hov with hov | hov
  · exact hov hq.1
  · rw [hq.2] at hov
    simp at hov

/-- An area that passes the scan test qualifies. -/
lemma qual_of_not_skip {A : Prop} {visP : Vec → Vec → Bool} {vec : Vec} {i : Area}
    (h : ¬ (A ∨ ¬ i.isOverlapping vec ∨
      visP ⟨vec.x, vec.y, vec.z + PLAYER_JUMP_HEIGHT⟩
        ⟨i.center.x, i.center.y, i.center.z + PLAYER_JUMP_HEIGHT⟩ = false)) :
    Qualifies visP vec i := by
  push_neg at h
  refine ⟨h.2.1, ?_⟩
  have hb := h.2.2
  simpa using hb

/-- One scan step preserves the locator loop invariant. -/
lemma locStep_inv (visP : Vec → Vec → Bool) (vec : Vec) {processed : List Area}
    {acc : LocAcc} (h : LocInv visP vec processed acc) (i : Area) :
    LocInv visP vec (processed ++ [i]) (locStep visP vec acc i) := by
  obtain ⟨h1, h2, h3, h4⟩ := h
  unfold locStep
  dsimp only
  by_cases hlt : ((Vec.dist i.center vec : ℝ) : WithTop ℝ) < acc.bestDist
  · rw [if_pos hlt]
    dsimp only
    have hdmin : ∀ a ∈ processed ++ [i],
        ((Vec.dist i.center vec : ℝ) : WithTop ℝ) ≤ ((Vec.dist a.center vec : ℝ) : WithTop ℝ) := by
      intro a ha'
      rcases List.mem_append.mp ha' with ha' | ha'
      · rcases hob : acc.best with _ | b0
        · obtain ⟨hp, _⟩ := h3 hob
          rw [hp] at ha'
          exact absurd ha' (List.not_mem_nil a)
        · obtain ⟨_, _, hall⟩ := h4 b0 hob
          exact le_trans (le_of_lt hlt) (hall a ha')
      · rw [List.mem_singleton] at ha'
        subst ha'
        exact le_refl _
    by_cases hskip : acc.ovBestDist < ((Vec.dist i.center vec : ℝ) : WithTop ℝ) ∨
        ¬ i.isOverlapping vec ∨
        visP ⟨vec.x, vec.y, vec.z + PLAYER_JUMP_HEIGHT⟩
          ⟨i.center.x, i.center.y, i.center.z + PLAYER_JUMP_HEIGHT⟩ = false
    · rw [if_pos hskip]
      refine ⟨?_, ?_, ?_, ?_⟩
      · intro hov
        obtain ⟨ha, hb⟩ := h1 hov
        refine ⟨ha, ?_⟩
        intro a ha'
        rcases List.mem_append.mp ha' with ha' | ha'
        · exact hb a ha'
        · rw [List.mem_singleton] at ha'
          subst ha'
          rcases hskip with hs | hs
          · rw [ha] at hs
            exact absurd hs (not_top_lt)
          · exact not_qual_of_block hs
      · intro o ho
        obtain ⟨hm, hq⟩ := h2 o ho
        exact ⟨List.mem_append.mpr (Or.inl hm), hq⟩
      · intro hb
        exact absurd hb (Option.some_ne_none i)
      · intro b hb
        rw [Option.some.injEq] at hb
        subst hb
        exact ⟨List.mem_append.mpr (Or.inr (List.mem_singleton.mpr rfl)), rfl, hdmin⟩
    · rw [if_neg hskip]
      refine ⟨?_, ?_, ?_, ?_⟩
      · intro hov
        exact absurd hov (Option.some_ne_none i)
      · intro o ho
        rw [Option.some.injEq] at ho
        subst ho
        exact ⟨List.mem_append.mpr (Or.inr (List.mem_singleton.mpr rfl)),
          qual_of_not_skip hskip⟩
      · intro hb
        exact absurd hb (Option.some_ne_none i)
      · intro b hb
        rw [Option.some.injEq] at hb
        subst hb
        exact ⟨List.mem_append.mpr (Or.inr (List.mem_singleton.mpr rfl)), rfl, hdmin⟩
  · rw [if_neg hlt]
    have hbd : acc.bestDist ≤ ((Vec.dist i.center vec : ℝ) : WithTop ℝ) := le_of_not_lt hlt
    obtain ⟨b0, hob⟩ : ∃ b0, acc.best = some b0 := by
      rcases hob : acc.best with _ | b0
      · obtain ⟨_, hbt⟩ := h3 hob
        rw [hbt] at hbd
        simp at hbd
      · exact ⟨b0, rfl⟩
    obtain ⟨hbm, hbdist, hall⟩ := h4 b0 hob
    have hmin : ∀ b, acc.best = some b → b ∈ processed ++ [i] ∧
        acc.bestDist = ((Vec.dist b.center vec : ℝ) : WithTop ℝ) ∧
        ∀ a ∈ processed ++ [i],
          acc.bestDist ≤ ((Vec.dist a.center vec : ℝ) : WithTop ℝ) := by
      intro b hb
      obtain ⟨hm, hdist, hal⟩ := h4 b hb
      refine ⟨List.mem_append.mpr (Or.inl hm), hdist, ?_⟩
      intro a ha'
      rcases List.mem_append.mp ha' with ha' | ha'
      · exact hal a ha'
      · rw [List.mem_singleton] at ha'
        subst ha'
        exact hbd
    by_cases hskip : acc.ovBestDist < ((Vec.dist i.center vec : ℝ) : WithTop ℝ) ∨
        ¬ i.isOverlapping vec ∨
        visP ⟨vec.x, vec.y, vec.z + PLAYER_JUMP_HEIGHT⟩
          ⟨i.center.x, i.center.y, i.center.z + PLAYER_JUMP_HEIGHT⟩ = false
    · rw [if_pos hskip]
      refine ⟨?_, ?_, ?_, ?_⟩
      · intro hov
        obtain ⟨ha, hb⟩ := h1 hov
        refine ⟨ha, ?_⟩
        intro a ha'
        rcases List.mem_append.mp ha' with ha' | ha'
        · exact hb a ha'
        · rw [List.mem_singleton] at ha'
          subst ha'
          rcases hskip with hs | hs
          · rw [ha] at hs
            exact absurd hs (not_top_lt)
          · exact not_qual_of_block hs
      · intro o ho
        obtain ⟨hm, hq⟩ := h2 o ho
        exact ⟨List.mem_append.mpr (Or.inl hm), hq⟩
      · intro hb
        rw [hob] at hb
        exact absurd hb (Option.some_ne_none b0)
      · exact hmin
    · rw [if_neg hskip]
      refine ⟨?_, ?_, ?_, ?_⟩
      · intro hov
        exact absurd hov (Option.some_ne_none i)
      · intro o ho
        rw [Option.some.injEq] at ho
        subst ho
        exact ⟨List.mem_append.mpr (Or.inr (List.mem_singleton.mpr rfl)),
          qual_of_not_skip hskip⟩
      · intro hb
        rw [hob] at hb
        exact absurd hb (Option.some_ne_none b0)
      · exact hmin

/-- The scan fold preserves the locator loop invariant. -/
lemma locFold_inv (visP : Vec → Vec → Bool) (vec : Vec) :
    ∀ (l : List Area) (processed : List Area) (acc : LocAcc),
      LocInv visP vec processed acc →
      LocInv visP vec (processed ++ l) (l.foldl (locStep visP vec) acc) := by
  intro l
  induction l with
  | nil =>
    intro processed acc h
    simpa using h
  | cons i rest ih =>
    intro processed acc h
    have h2 := ih (processed ++ [i]) (locStep visP vec acc i) (locStep_inv visP vec h i)
    simpa [List.append_assoc] using h2

/-- The locator loop invariant holds at the initial accumulator. -/
lemma locInv_init (visP : Vec → Vec → Bool) (vec : Vec) :
    LocInv visP vec [] ⟨⊤, ⊤, none, none⟩ := by
  refine ⟨fun _ => ⟨rfl, fun a ha => absurd ha (List.not_mem_nil a)⟩, ?_, fun _ => ⟨rfl, rfl⟩, ?_⟩
  · intro o ho
    exact Option.noConfusion ho
  · intro b hb
    exact Option.noConfusion hb

/-- Claim C8: the locator never returns an area failing the
    overlap-and-visibility test when some scanned area passes it, and when
    no area passes it returns an area of minimal center distance. -/
theorem c8_locator_prefers_qualified (visP : Vec → Vec → Bool) (areas : List Area)
    (vec : Vec) (hne : areas ≠ []) :
    ∃ r, findClosestNavSquare visP areas vec = some r ∧ r ∈ areas ∧
      ((∃ a ∈ areas, Qualifies visP vec a) → Qualifies visP vec r) ∧
      ((∀ a ∈ areas, ¬ Qualifies visP vec a) →
        ∀ a ∈ areas, Vec.dist r.center vec ≤ Vec.dist a.center vec) := by
  have hinv := locFold_inv visP vec areas [] ⟨⊤, ⊤, none, none⟩ (locInv_init visP vec)
  rw [List.nil_append] at hinv
  obtain ⟨h1, h2, h3, h4⟩ := hinv
  unfold findClosestNavSquare
  dsimp only
  cases hov : (areas.foldl (locStep visP vec) ⟨⊤, ⊤, none, none⟩).ovBest with
  | some o =>
    obtain ⟨hm, hq⟩ := h2 o hov
    refine ⟨o, rfl, hm, fun _ => hq, ?_⟩
    intro hall
    exact absurd hq (hall o hm)
  | none =>
    obtain ⟨_, hnq⟩ := h1 hov
    cases hb : (areas.foldl (locStep visP vec) ⟨⊤, ⊤, none, none⟩).best with
    | none =>
      obtain ⟨hp, _⟩ := h3 hb
      exact absurd hp hne
    | some b =>
      obtain ⟨hm, hbd, hall⟩ := h4 b hb
      refine ⟨b, rfl, hm, ?_, ?_⟩
      · rintro ⟨a, ha, hqa⟩
        exact absurd hqa (hnq a ha)
      · intro _ a ha
        have hle := hall a ha
        rw [hbd] at hle
        exact_mod_cast hle

/-- Witness for c8_locator_prefers_qualified on the one-area fixture. -/
theorem c8_locator_prefers_qualified_witness :
    ∃ r, findClosestNavSquare wVisFalse [wAreaSolo] wOrigin = some r ∧ r ∈ [wAreaSolo] ∧
      ((∃ a ∈ [wAreaSolo], Qualifies wVisFalse wOrigin a) → Qualifies wVisFalse wOrigin r) ∧
      ((∀ a ∈ [wAreaSolo], ¬ Qualifies wVisFalse wOrigin a) →
        ∀ a ∈ [wAreaSolo], Vec.dist r.center wOrigin ≤ Vec.dist a.center wOrigin) :=
  c8_locator_prefers_qualified wVisFalse [wAreaSolo] wOrigin (by simp)

end

end NavParser
